import Mathlib

/-!
Verification of the identity/caching/lazy-fetch layer of python-nitrate
(`source/base.py`) against its specification.

The development shallowly embeds the code of `base.py`:

* `_idify` (composite-key packing/unpacking) becomes pure functions on
  `List Int` / `Int`, with the dynamic `isinstance` dispatch made explicit
  through the `IdInput` variant type and Python exceptions through the
  `IdOutput.error` constructor.
* the object layer (`Nitrate.__new__`, `Nitrate.__init__`, `Nitrate._init`,
  `_getter`, `_setter`, `Nitrate.__eq__`, `Nitrate._is_expired`) becomes
  explicit state passing over an `Obj` record and a `Sys` record holding a
  heap (list of objects, a reference being an index) and the per-type class
  cache (an association list from keys to references).

Machine integers of the source are plain Python ints (arbitrary precision),
so they are embedded as `Int` with no wrap-around.  Python `%` and `/` on
ints (the source is Python 2: `/` floor-divides) agree with Lean's
Euclidean `%` and `/` whenever the divisor is positive, which is the only
case the source exercises (`config._MAX_ID` is positive).
-/

/-- The configured maximum-id bound `config._MAX_ID`.  The value is pinned
by the docstring of `_idify` in `base.py`:
`_idify([1, 2]) ---> 1000000002`, i.e. the bound is `10 ^ 9`. -/
def MAX_ID : Int := 1000000000

/-- Argument of `_idify`: the source dispatches on `isinstance(id, list)`,
then `isinstance(id, int)`, and raises `NitrateError` for anything else
(the `other` constructor carries the `repr` of such a value). -/
inductive IdInput where
  | list (xs : List Int)
  | int (n : Int)
  | other (s : String)
deriving DecidableEq

/-- Result of `_idify`: an integer (packing), a list (unpacking), or a
raised `NitrateError`. -/
inductive IdOutput where
  | int (n : Int)
  | list (xs : List Int)
  | error (s : String)
deriving DecidableEq

/-- The packing loop of `_idify` for list input:
`result = 0; for value in id: result = result * config._MAX_ID + value`. -/
def packList (xs : List Int) : Int :=
  xs.foldl (fun result value => result * MAX_ID + value) 0

/-- The unpacking loop of `_idify` for int input:
`while id > 0: remainder = id % MAX_ID; id = id / MAX_ID;
result.append(remainder)`.  `acc` is the `result` list being appended to. -/
def _unpackAux (id : Int) (acc : List Int) : List Int :=
  if 0 < id then _unpackAux (id / MAX_ID) (acc ++ [id % MAX_ID]) else acc
termination_by id.toNat
decreasing_by
  all_goals (simp only [MAX_ID]; omega)

/-- The unpacking branch of `_idify`: run the loop on an empty `result`
list, then `result.reverse()`. -/
def unpack (id : Int) : List Int :=
  (_unpackAux id []).reverse

/-- `_idify` from `base.py`: pack a list of ids into a single id, unpack a
single id into the list of original ids, raise `NitrateError` otherwise. -/
def _idify : IdInput → IdOutput
  | IdInput.list xs => IdOutput.int (packList xs)
  | IdInput.int n => IdOutput.list (unpack n)
  | IdInput.other s => IdOutput.error ("Invalid id for idifying: " ++ s)

/-! ### Basic facts about the codec -/

theorem packList_append (xs : List Int) (y : Int) :
    packList (xs ++ [y]) = packList xs * MAX_ID + y := by
  simp [packList, List.foldl_append]

theorem packList_nonneg (xs : List Int) (h : ∀ x ∈ xs, 0 ≤ x) :
    0 ≤ packList xs := by
  induction xs using List.reverseRecOn with
  | nil => simp [packList]
  | append_singleton xs y ih =>
      rw [packList_append]
      have hy : 0 ≤ y := h y (by simp)
      have hxs : 0 ≤ packList xs := ih (fun x hx => h x (by simp [hx]))
      have hmul : 0 ≤ packList xs * MAX_ID :=
        mul_nonneg hxs (by simp only [MAX_ID]; omega)
      omega

theorem _unpackAux_append (id : Int) (acc : List Int) :
    _unpackAux id acc = acc ++ _unpackAux id [] := by
  by_cases h : 0 < id
  · rw [_unpackAux, if_pos h]
    conv_rhs => rw [_unpackAux, if_pos h]
    rw [_unpackAux_append (id / MAX_ID) (acc ++ [id % MAX_ID]),
        _unpackAux_append (id / MAX_ID) ([] ++ [id % MAX_ID])]
    simp
  · rw [_unpackAux, if_neg h]
    conv_rhs => rw [_unpackAux, if_neg h]
    simp
termination_by id.toNat
decreasing_by
  all_goals (simp only [MAX_ID]; omega)

/-- Round trip of the codec: unpacking a packed list of components lying in
`[1, MAX_ID)` recovers the list (a leading zero component would be lost,
whence the positivity requirement). -/
theorem unpack_packList (xs : List Int) (hv : ∀ x ∈ xs, 0 < x ∧ x < MAX_ID) :
    unpack (packList xs) = xs := by
  induction xs using List.reverseRecOn with
  | nil =>
      show (_unpackAux (packList []) []).reverse = []
      have h0 : packList [] = 0 := rfl
      rw [h0, _unpackAux]
      norm_num
  | append_singleton xs y ih =>
      have hy : 0 < y ∧ y < MAX_ID := hv y (by simp)
      have hxs : ∀ x ∈ xs, 0 < x ∧ x < MAX_ID := fun x hx => hv x (by simp [hx])
      have hP : 0 ≤ packList xs := packList_nonneg xs (fun x hx => (hxs x hx).1.le)
      have hmul : 0 ≤ packList xs * MAX_ID :=
        mul_nonneg hP (by simp only [MAX_ID]; omega)
      have hpos : 0 < packList xs * MAX_ID + y := by omega
      have hdiv : (packList xs * MAX_ID + y) / MAX_ID = packList xs := by
        simp only [MAX_ID] at hy ⊢
        omega
      have hmod : (packList xs * MAX_ID + y) % MAX_ID = y := by
        simp only [MAX_ID] at hy ⊢
        omega
      show unpack (packList (xs ++ [y])) = xs ++ [y]
      rw [packList_append]
      show (_unpackAux (packList xs * MAX_ID + y) []).reverse = xs ++ [y]
      rw [_unpackAux, if_pos hpos, hdiv, hmod,
          _unpackAux_append (packList xs) ([] ++ [y])]
      have ihs : (_unpackAux (packList xs) []).reverse = xs := ih hxs
      simp only [List.nil_append, List.reverse_append, List.reverse_cons,
        List.reverse_nil, List.nil_append, ihs]

/-! ### Claim C1 -/

/-- Claim C1: for every non-empty ordered sequence `xs` of positive
integers each strictly below `MAX_ID`, unpacking the packed key reproduces
the original sequence, and re-packing the unpacked components of any key
`n` produced by such a packing yields `n` again. -/
theorem idify_roundtrip (xs : List Int) (hne : xs ≠ [])
    (hv : ∀ x ∈ xs, 0 < x ∧ x < MAX_ID) (n : Int)
    (hn : _idify (IdInput.list xs) = IdOutput.int n) :
    _idify (IdInput.int n) = IdOutput.list xs
    ∧ _idify (IdInput.list (unpack n)) = IdOutput.int n := by
  have hpack : packList xs = n := by
    simpa [_idify] using hn
  subst hpack
  refine ⟨?_, ?_⟩
  · simp [_idify, unpack_packList xs hv]
  · simp [_idify, unpack_packList xs hv]

/-- Witness for C1 at the concrete sequence `[3, 7]`, whose packed key is
`3 * 10 ^ 9 + 7 = 3000000007`. -/
theorem idify_roundtrip_witness :
    ([3, 7] : List Int) ≠ []
    ∧ _idify (IdInput.int 3000000007) = IdOutput.list [3, 7]
    ∧ _idify (IdInput.list (unpack 3000000007)) = IdOutput.int 3000000007 :=
  ⟨by decide,
    idify_roundtrip [3, 7] (by decide) (by decide) 3000000007 (by decide)⟩

/-! ### Claim C8 -/

/-- Claim C8 counterexample: the claim asserts that packing raises
`InvalidKeyError` on an empty list, on a component `≥ MAX_ID` and on a
negative component; in the code the list branch of `_idify` performs no
validation at all and returns the fold result in all three cases. -/
theorem idify_pack_no_validation_cex :
    _idify (IdInput.list []) = IdOutput.int 0
    ∧ _idify (IdInput.list [MAX_ID + 5]) = IdOutput.int (MAX_ID + 5)
    ∧ _idify (IdInput.list [-2]) = IdOutput.int (-2) := by
  refine ⟨rfl, ?_, ?_⟩ <;> simp [_idify, packList]

/-- Claim C8 amended: packing via `_idify` never raises on a list input:
for every list of integers (empty, negative or out-of-range components
included) it returns the base-`MAX_ID` fold as an integer; the
`NitrateError` branch is reached only by inputs that are neither a list
nor an integer. -/
theorem idify_pack_total (xs : List Int) (s : String) :
    (∃ n, _idify (IdInput.list xs) = IdOutput.int n)
    ∧ (∀ m, _idify (IdInput.list xs) ≠ IdOutput.error m)
    ∧ (∃ m, _idify (IdInput.other s) = IdOutput.error m) := by
  refine ⟨⟨packList xs, rfl⟩, ?_, ⟨"Invalid id for idifying: " ++ s, rfl⟩⟩
  intro m h
  simp [_idify] at h

/-! ### Claim C9 -/

/-- Claim C9 counterexample: the claim asserts that unpacking raises
`InvalidKeyError` on negative input; in the code the `while id > 0` loop
simply never runs, so `_idify(-1)` returns the empty list instead of
raising. -/
theorem idify_unpack_negative_cex :
    _idify (IdInput.int (-1)) = IdOutput.list [] := by
  show IdOutput.list (unpack (-1)) = IdOutput.list []
  unfold unpack
  rw [_unpackAux, if_neg (by omega)]
  rfl

/-- Claim C9 amended: unpacking via `_idify` returns the empty sequence for
every non-positive integer input — `0` unpacks to the empty sequence as the
claim states, but negative inputs do so as well instead of raising. -/
theorem idify_unpack_nonpositive (n : Int) (h : n ≤ 0) :
    _idify (IdInput.int n) = IdOutput.list [] := by
  show IdOutput.list (unpack n) = IdOutput.list []
  unfold unpack
  rw [_unpackAux, if_neg (by omega)]
  rfl

/-- Witness for the amended C9 at the concrete inputs `-5` and `0`. -/
theorem idify_unpack_nonpositive_witness :
    (-5 : Int) ≤ 0 ∧ _idify (IdInput.int (-5)) = IdOutput.list []
    ∧ _idify (IdInput.int 0) = IdOutput.list [] :=
  ⟨by decide, idify_unpack_nonpositive (-5) (by decide),
    idify_unpack_nonpositive 0 (by decide)⟩

/-! ### The object layer: values, objects, cache levels -/

/-- A Python value as stored in an object attribute.  `uninit` is the
`NitrateNone` marker class used by the source to distinguish uninitialized
attributes from a legitimate `None`, which is `pynone` here. -/
inductive Value where
  | uninit
  | pynone
  | vint (n : Int)
  | vstr (s : String)
deriving DecidableEq

/-- Modelled from the spec: the global cache-policy switch
`{none, objects-only, objects+persistent}` lives in the configuration
module (`config.CACHE_NONE` and friends), which is not part of the
embedded source file; the source only compares the active level against
`CACHE_NONE` (with `!=`) and `CACHE_OBJECTS` (with `<`), so all that
matters is the strictly increasing numbering. -/
def CACHE_NONE : Nat := 0

/-- Modelled from the spec: cache level caching only persistent changes. -/
def CACHE_CHANGES : Nat := 1

/-- Modelled from the spec: cache level caching objects in memory. -/
def CACHE_OBJECTS : Nat := 2

/-- Modelled from the spec: cache level adding a persistent cache file. -/
def CACHE_PERSISTENT : Nat := 3

/-- A `Nitrate` instance.  `_id`, `_name`, `_fetched` and `_modified`
mirror the attributes of the same names in `base.py` (`_fetched` is a
timestamp, embedded as an integer instant; `none` means never fetched).
`pfx` mirrors `self._prefix` and `injectVal` mirrors `self._inject` (the
stored initial object dictionary, reduced to its `id` entry).  The
remaining per-class declared attributes (`self._attributes`, accessed as
`self._<field>` by the generated accessors) are the `fields` map.  A
freshly allocated instance (before `__init__`) reads its class defaults
`_id = None`, `_fetched = None`. -/
structure Obj where
  _id : Value
  _name : Value
  _fetched : Option Int
  _modified : Bool
  pfx : String
  injectVal : Option Int
  fields : String → Value

/-- A freshly allocated instance as produced by `object.__new__`: all
attribute reads fall back to the class defaults. -/
def freshObj : Obj :=
  { _id := Value.pynone, _name := Value.pynone, _fetched := none,
    _modified := false, pfx := ("ID"), injectVal := none,
    fields := fun _ => Value.uninit }

/-- `Nitrate._fetch` from `base.py`: the base implementation just saves the
timestamp when data were fetched and stores the initial object dictionary.
Concrete entity types override it to also populate every declared field;
theorems below quantify over an arbitrary override of type `Obj → Obj`
where the override matters. -/
def base_fetch (now : Int) (inj : Option Int) (o : Obj) : Obj :=
  { o with _fetched := some now, injectVal := inj }

/-- `Nitrate._init` from `base.py`: set every declared attribute to the
`NitrateNone` marker and reset the fetch timestamp. -/
def nitrate_init_attrs (o : Obj) : Obj :=
  { o with fields := fun _ => Value.uninit, _fetched := none }

/-- `Nitrate._is_expired` from `base.py`:
`self._fetched is None or (datetime.now() - self._fetched) > self._expiration`.
`expiration` is the per-class `_expiration` time-to-live and `now` the
current instant. -/
def _is_expired (o : Obj) (now expiration : Int) : Bool :=
  match o._fetched with
  | none => true
  | some t => decide (expiration < now - t)

/-- Result of running a generated getter: the returned value, the object
afterwards (attribute mutation is in place in Python), and whether
`self._fetch()` was invoked. -/
structure GetResult where
  value : Value
  obj : Obj
  fetchCalled : Bool

/-- The getter produced by the `_getter(field)` factory in `base.py`,
applied to `self`: if `self._<field>` is the `NitrateNone` marker, call
`self._fetch()` (here the arbitrary concrete implementation `f`), then
return `self._<field>`. -/
def _getter (f : Obj → Obj) (field : String) (o : Obj) : GetResult :=
  if o.fields field = Value.uninit then
    let o1 := f o
    ⟨o1.fields field, o1, true⟩
  else ⟨o.fields field, o, false⟩

/-- `setattr(self, "_" + field, value)`. -/
def setField (o : Obj) (field : String) (v : Value) : Obj :=
  { o with fields := fun a => if a = field then v else o.fields a }

/-- Result of running a generated setter: the object afterwards, and
whether `self._fetch()`, `log.info` and `self._update()` were invoked. -/
structure SetResult where
  obj : Obj
  fetchCalled : Bool
  logged : Bool
  updateCalled : Bool

/-- The setter produced by the `_setter(field)` factory in `base.py`,
applied to `self`: fetch if the attribute is still `NitrateNone`; then,
only if the new value differs, store it, log, and either remember the
modified state (cache level other than `CACHE_NONE`) or save immediately
via the `self._update()` hook.  `f` is the concrete `_fetch`
implementation and `cl` the active cache level. -/
def _setter (f : Obj → Obj) (cl : Nat) (field : String) (v : Value) (o : Obj) :
    SetResult :=
  let fetched := if o.fields field = Value.uninit then (f o, true) else (o, false)
  let o1 := fetched.1
  if o1.fields field ≠ v then
    let o2 := setField o1 field v
    if cl ≠ CACHE_NONE then
      ⟨{ o2 with _modified := true }, fetched.2, true, false⟩
    else
      ⟨o2, fetched.2, true, true⟩
  else ⟨o1, fetched.2, false, false⟩

/-! ### Claim C3 -/

/-- A hydrated-but-expired object: fetched at instant 0 (so with a
time-to-live of 30 it is expired at instant 100) with every declared
attribute holding a real value. -/
def staleObj : Obj :=
  { _id := Value.vint 1, _name := Value.pynone, _fetched := some 0,
    _modified := false, pfx := ("ID"), injectVal := none,
    fields := fun _ => Value.vint 5 }

/-- Claim C3 counterexample: the claim asserts that reading any field of an
object with `_is_expired` true triggers a re-fetch resetting `_fetched` to
the current time; on `staleObj` (expired at instant 100) the generated
getter returns the stored value without calling `_fetch`, and `_fetched`
keeps its old instant 0.  The getter only ever checks the per-attribute
`NitrateNone` marker, never the timestamp. -/
theorem getter_stale_no_refetch_cex :
    _is_expired staleObj 100 30 = true
    ∧ _getter (base_fetch 100 none) ("status") staleObj
        = ⟨Value.vint 5, staleObj, false⟩
    ∧ ((_getter (base_fetch 100 none) ("status") staleObj).obj)._fetched
        = some 0 :=
  ⟨rfl, rfl, rfl⟩

/-- Claim C3 amended: the generated getter never consults the expiration
state: on an object that `_is_expired` deems stale, reading a field whose
attribute already holds a real (non-`NitrateNone`) value returns that
value with no re-fetch and the object — `_fetched` included — unchanged;
the read triggers `_fetch` only when the attribute is still the
`NitrateNone` marker (as on a never-fetched object, where the base fetch
then does reset `_fetched`). -/
theorem getter_ignores_expiration (f : Obj → Obj) (field : String) (o : Obj)
    (now expiration : Int) (hexp : _is_expired o now expiration = true) :
    (o.fields field ≠ Value.uninit →
      _getter f field o = ⟨o.fields field, o, false⟩)
    ∧ (o.fields field = Value.uninit →
      (_getter f field o).fetchCalled = true) := by
  constructor
  · intro h
    simp [_getter, h]
  · intro h
    simp [_getter, h]

/-- Witness for the amended C3: the expired `staleObj` is read without a
fetch; the never-fetched `freshObj` (also stale) does fetch on read. -/
theorem getter_ignores_expiration_witness :
    _is_expired staleObj 100 30 = true
    ∧ _getter (base_fetch 100 none) ("status") staleObj
        = ⟨Value.vint 5, staleObj, false⟩
    ∧ _is_expired freshObj 100 30 = true
    ∧ (_getter (base_fetch 100 none) ("status") freshObj).fetchCalled = true :=
  ⟨rfl,
    (getter_ignores_expiration (base_fetch 100 none) ("status") staleObj
      100 30 rfl).1 (by decide),
    rfl,
    (getter_ignores_expiration (base_fetch 100 none) ("status") freshObj
      100 30 rfl).2 rfl⟩

/-! ### Claim C6 -/

/-- Claim C6: on a hydrated object (fetch timestamp set, attribute holding
a real value), setting a field to its current value is a complete no-op:
the object is returned exactly as it was, `_modified` is untouched, no log
entry is written, and neither `_fetch` nor `_update` is invoked. -/
theorem setter_noop_on_equal (f : Obj → Obj) (cl : Nat) (field : String)
    (v : Value) (o : Obj) (hfetched : o._fetched ≠ none)
    (hinit : o.fields field ≠ Value.uninit) (hv : v = o.fields field) :
    _setter f cl field v o = ⟨o, false, false, false⟩ := by
  subst hv
  simp [_setter, hinit]

/-- Witness for C6: writing the value already stored in `staleObj` changes
nothing, at cache level `CACHE_OBJECTS` as well as `CACHE_NONE`. -/
theorem setter_noop_on_equal_witness :
    staleObj._fetched ≠ none
    ∧ staleObj.fields ("status") ≠ Value.uninit
    ∧ _setter (fun o => o) CACHE_OBJECTS ("status") (Value.vint 5) staleObj
        = ⟨staleObj, false, false, false⟩
    ∧ _setter (fun o => o) CACHE_NONE ("status") (Value.vint 5) staleObj
        = ⟨staleObj, false, false, false⟩ :=
  ⟨by decide, by decide,
    setter_noop_on_equal (fun o => o) CACHE_OBJECTS ("status") (Value.vint 5)
      staleObj (by decide) (by decide) rfl,
    setter_noop_on_equal (fun o => o) CACHE_NONE ("status") (Value.vint 5)
      staleObj (by decide) (by decide) rfl⟩

/-! ### Claim C7 -/

/-- Claim C7: on an object whose attribute holds a real value, setting a
field to a different value stores the value and then dispatches on the
cache level: at any level other than `CACHE_NONE` the object is only
marked modified and `_update` is not called; at `CACHE_NONE` the
single-object update hook `_update` is invoked immediately and `_modified`
is left as it was.  (In both cases the change is logged.) -/
theorem setter_change_dispatch (f : Obj → Obj) (cl : Nat) (field : String)
    (v : Value) (o : Obj)
    (hinit : o.fields field ≠ Value.uninit) (hv : o.fields field ≠ v) :
    _setter f cl field v o =
      if cl ≠ CACHE_NONE then
        ⟨{ setField o field v with _modified := true }, false, true, false⟩
      else ⟨setField o field v, false, true, true⟩ := by
  by_cases hcl : cl = CACHE_NONE
  · subst hcl
    simp [_setter, hinit, hv]
  · simp [_setter, hinit, hv, hcl]

/-- Witness for C7: overwriting the stored `5` with `9` on `staleObj`
marks it modified without `_update` at level `CACHE_OBJECTS`, and calls
`_update` without marking at level `CACHE_NONE`. -/
theorem setter_change_dispatch_witness :
    _setter (fun o => o) CACHE_OBJECTS ("status") (Value.vint 9) staleObj
      = ⟨{ setField staleObj ("status") (Value.vint 9) with _modified := true },
          false, true, false⟩
    ∧ _setter (fun o => o) CACHE_NONE ("status") (Value.vint 9) staleObj
      = ⟨setField staleObj ("status") (Value.vint 9), false, true, true⟩ := by
  constructor
  · simpa [CACHE_OBJECTS, CACHE_NONE] using
      setter_change_dispatch (fun o => o) CACHE_OBJECTS ("status")
        (Value.vint 9) staleObj (by decide) (by decide)
  · simpa [CACHE_NONE] using
      setter_change_dispatch (fun o => o) CACHE_NONE ("status")
        (Value.vint 9) staleObj (by decide) (by decide)

/-! ### Claim C10 -/

/-- Outcome of `Nitrate.__eq__`: a boolean, or a raised `NitrateError`. -/
inductive EqResult where
  | ok (b : Bool)
  | raised (s : String)
deriving DecidableEq

/-- The `id` property of `Nitrate` (`property(_getter("id"))`) applied to
`self` and reduced to the value it returns: if `self._id` is the
`NitrateNone` marker, `self._fetch()` runs first and the id is read from
the fetched object. -/
def id_prop (f : Obj → Obj) (o : Obj) : Value :=
  if o._id = Value.uninit then (f o)._id else o._id

/-- `Nitrate.__eq__` from `base.py`: `False` against `None`, a raised
`NitrateError` when the concrete classes differ, and `self.id == other.id`
otherwise.  `selfCls` and `otherCls` are the operands' concrete Python
classes and `f` the concrete `_fetch` implementation that the `id`
property may invoke. -/
def nitrate_eq (f : Obj → Obj) (selfCls otherCls : String) (self : Obj)
    (other : Option Obj) : EqResult :=
  match other with
  | none => EqResult.ok false
  | some oth =>
      if selfCls ≠ otherCls then
        EqResult.raised ("Cannot compare " ++ selfCls ++ " with " ++ otherCls)
      else EqResult.ok (decide (id_prop f self = id_prop f oth))

/-- Claim C10: comparing against `None` yields `False`; comparing operands
of different concrete classes raises the type-mismatch `NitrateError`
(the `Cannot compare` error); otherwise the result is exactly the
comparison of the two `id` properties — and, as the last conjunct shows,
it is unchanged under arbitrary replacement of all other field contents of
either operand. -/
theorem eq_identity_only (f : Obj → Obj) (sc oc : String) (a oth : Obj) :
    nitrate_eq f sc oc a none = EqResult.ok false
    ∧ (sc ≠ oc → nitrate_eq f sc oc a (some oth)
        = EqResult.raised ("Cannot compare " ++ sc ++ " with " ++ oc))
    ∧ (sc = oc → nitrate_eq f sc oc a (some oth)
        = EqResult.ok (decide (id_prop f a = id_prop f oth)))
    ∧ (∀ g1 g2 : String → Value,
        a._id ≠ Value.uninit → oth._id ≠ Value.uninit →
        nitrate_eq f sc sc { a with fields := g1 }
            (some { oth with fields := g2 })
          = EqResult.ok (decide (a._id = oth._id))) := by
  refine ⟨rfl, ?_, ?_, ?_⟩
  · intro h
    simp [nitrate_eq, h]
  · intro h
    subst h
    simp [nitrate_eq]
  · intro g1 g2 ha hb
    simp [nitrate_eq, id_prop, ha, hb]

/-- Witness for C10 on two objects with ids 1 and 2: `None` comparison,
cross-class comparison, and same-class comparison by id. -/
theorem eq_identity_only_witness :
    nitrate_eq (fun o => o) ("TestCase") ("TestCase")
        ({ freshObj with _id := Value.vint 1 }) none = EqResult.ok false
    ∧ nitrate_eq (fun o => o) ("TestCase") ("TestRun")
        ({ freshObj with _id := Value.vint 1 })
        (some { freshObj with _id := Value.vint 2 })
      = EqResult.raised ("Cannot compare TestCase with TestRun")
    ∧ nitrate_eq (fun o => o) ("TestCase") ("TestCase")
        ({ freshObj with _id := Value.vint 1 })
        (some { freshObj with _id := Value.vint 2 })
      = EqResult.ok false := by
  refine ⟨(eq_identity_only (fun o => o) ("TestCase") ("TestCase")
    ({ freshObj with _id := Value.vint 1 })
    ({ freshObj with _id := Value.vint 2 })).1, ?_, ?_⟩
  · exact (eq_identity_only (fun o => o) ("TestCase") ("TestRun")
      ({ freshObj with _id := Value.vint 1 })
      ({ freshObj with _id := Value.vint 2 })).2.1 (by decide)
  · have h3 := (eq_identity_only (fun o => o) ("TestCase") ("TestCase")
      ({ freshObj with _id := Value.vint 1 })
      ({ freshObj with _id := Value.vint 2 })).2.2.1 rfl
    rw [h3]
    decide

/-! ### The identity registry: class cache and object construction -/

/-- Identity key in a class cache (`cls._cache`): an integer id or a
string name. -/
inductive CKey where
  | kint (n : Int)
  | kstr (s : String)
deriving DecidableEq

/-- Constructor argument of a concrete cached type, as classified by the
`isinstance` checks of the source: an integer id, a string name, an inject
dictionary (reduced to its `id` entry), or no argument at all. -/
inductive IdArg where
  | id (n : Int)
  | name (s : String)
  | inject (n : Int)
  | noneArg
deriving DecidableEq

/-- `Nitrate.__init__` from `base.py`: set up `self._prefix`, call
`self._init()`, then set `self._id` — the `NitrateNone` marker when no id
was given, the integer itself for an int, and `int(id)` for anything
else, raising `NitrateError` when the conversion fails (a non-numeric
name) and `TypeError` when it is not applicable (a dictionary). -/
def nitrate_init (arg : IdArg) (p : String) (o : Obj) : Except String Obj :=
  let o1 := nitrate_init_attrs { o with pfx := p }
  match arg with
  | IdArg.noneArg => Except.ok { o1 with _id := Value.uninit }
  | IdArg.id n => Except.ok { o1 with _id := Value.vint n }
  | IdArg.name s =>
      match s.toInt? with
      | some n => Except.ok { o1 with _id := Value.vint n }
      | none => Except.error ("Invalid id")
  | IdArg.inject _ => Except.error ("TypeError")

/-- Modelled from the spec: the concrete cached entity types are not part
of the embedded source file (`base.py` defines only their shared base
class), so their `__init__` is modelled from the specification of
`lookupOrCreate`: "If an instance for that identity already exists for
`type`, return it unchanged (no re-fetch triggered)."  Following the
`Nitrate._is_initialized` helper of the source (which classifies the
argument into id / name / inject and reports the instance as initialized
exactly when `self._id` is no longer the class default `None`), a
concrete `__init__` returns an already-initialized instance untouched —
first fetching from the inject when one is supplied and the instance is
unfetched — and otherwise initializes the instance through the base
`Nitrate.__init__`, recording the name on name-based construction.  `f`
is the concrete fetch-from-inject implementation. -/
def concrete_init (f : Int → Obj → Obj) (arg : IdArg) (o : Obj) :
    Except String Obj :=
  if o._id ≠ Value.pynone then
    match arg with
    | IdArg.inject i =>
        if o._fetched = none then Except.ok (f i o) else Except.ok o
    | _ => Except.ok o
  else
    match arg with
    | IdArg.name s =>
        match nitrate_init IdArg.noneArg ("ID") o with
        | Except.ok o1 => Except.ok { o1 with _name := Value.vstr s }
        | Except.error e => Except.error e
    | IdArg.inject i => nitrate_init (IdArg.id i) ("ID") o
    | a => nitrate_init a ("ID") o

/-- The process-wide state for one concrete cached type: the heap of live
instances (a reference is an index into the list) and the class cache
`cls._cache`, an association list from identity keys to references where
the most recent registration stands in front. -/
structure Sys where
  heap : List Obj
  cache : List (CKey × Nat)

/-- Dictionary lookup in the class cache. -/
def cacheFind (c : List (CKey × Nat)) (k : CKey) : Option Nat :=
  (c.find? (fun e => decide (e.1 = k))).map (fun e => e.2)

/-- `Nitrate._cache_lookup` from `base.py`: an int or string argument is
looked up directly (`cls._cache[id]`), an inject dictionary by its `id`
entry, and anything else raises `KeyError`; a missing key surfaces as the
same `KeyError`.  On success the instance and the key it was found under
are returned. -/
def _cache_lookup (c : List (CKey × Nat)) : IdArg → Option (Nat × CKey)
  | IdArg.id n => (cacheFind c (CKey.kint n)).map (fun r => (r, CKey.kint n))
  | IdArg.name s => (cacheFind c (CKey.kstr s)).map (fun r => (r, CKey.kstr s))
  | IdArg.inject n => (cacheFind c (CKey.kint n)).map (fun r => (r, CKey.kint n))
  | IdArg.noneArg => none

/-- `Nitrate.__new__` from `base.py`.  `cl` is the active cache level and
`hasCache` whether the concrete class declares a `_cache` (`getattr(cls,
"_cache", None) is not None`).  With caching off a fresh instance is
allocated and nothing registered; otherwise the cached instance is
returned when `_cache_lookup` succeeds, and on `KeyError` a fresh
instance is allocated and registered — but only under an integer id: the
string-name branch writes the `Caching ...` log line and registers
nothing (see claim C4). -/
def nitrate_new (cl : Nat) (hasCache : Bool) (s : Sys) (arg : IdArg) :
    Nat × Sys :=
  if cl < CACHE_OBJECTS ∨ hasCache = false then
    (s.heap.length, { s with heap := s.heap ++ [freshObj] })
  else
    match _cache_lookup s.cache arg with
    | some (r, _) => (r, s)
    | none =>
        let r := s.heap.length
        let s1 : Sys := { s with heap := s.heap ++ [freshObj] }
        match arg with
        | IdArg.id n => (r, { s1 with cache := (CKey.kint n, r) :: s1.cache })
        | _ => (r, s1)

/-- One full construction `T(arg)` of a concrete cached type `T`:
`Nitrate.__new__` (possibly returning a cached instance) followed by the
concrete `__init__` running on the returned instance. -/
def construct (f : Int → Obj → Obj) (cl : Nat) (hasCache : Bool) (s : Sys)
    (arg : IdArg) : Except String (Nat × Sys) :=
  let rs := nitrate_new cl hasCache s arg
  match concrete_init f arg (rs.2.heap.getD rs.1 freshObj) with
  | Except.ok o => Except.ok (rs.1, { rs.2 with heap := rs.2.heap.set rs.1 o })
  | Except.error e => Except.error e

/-- Two successive constructions with the same argument: the two returned
references and the final state. -/
def construct2 (f : Int → Obj → Obj) (cl : Nat) (hasCache : Bool) (s : Sys)
    (arg : IdArg) : Option (Nat × Nat × Sys) :=
  match construct f cl hasCache s arg with
  | Except.ok (r1, s1) =>
      match construct f cl hasCache s1 arg with
      | Except.ok (r2, s2) => some (r1, r2, s2)
      | Except.error _ => none
  | Except.error _ => none

/-- The constructor argument denoting a given identity key. -/
def argOfKey : CKey → IdArg
  | CKey.kint n => IdArg.id n
  | CKey.kstr s => IdArg.name s

/-! ### Construction lemmas -/

theorem concrete_init_id_eq (f : Int → Obj → Obj) (n : Int) (o : Obj) :
    concrete_init f (IdArg.id n) o =
      if o._id = Value.pynone then
        Except.ok { nitrate_init_attrs { o with pfx := ("ID") } with
          _id := Value.vint n }
      else Except.ok o := by
  by_cases h : o._id = Value.pynone
  · simp [concrete_init, h, nitrate_init]
  · simp [concrete_init, h]

theorem concrete_init_id_exists (f : Int → Obj → Obj) (n : Int) (o : Obj) :
    ∃ o2, concrete_init f (IdArg.id n) o = Except.ok o2 := by
  rw [concrete_init_id_eq]
  by_cases h : o._id = Value.pynone
  · rw [if_pos h]
    exact ⟨_, rfl⟩
  · rw [if_neg h]
    exact ⟨_, rfl⟩

theorem getD_append_self {α : Type} (l : List α) (a d : α) :
    (l ++ [a]).getD l.length d = a := by
  induction l with
  | nil => rfl
  | cons x t ih => simp [ih]

theorem set_getD_self {α : Type} (l : List α) (i : Nat) (d : α)
    (h : i < l.length) : l.set i (l.getD i d) = l := by
  induction l generalizing i with
  | nil => simp at h
  | cons a t ih =>
      cases i with
      | zero => simp [List.getD]
      | succ j =>
          simp only [List.getD_cons_succ, List.set_cons_succ]
          rw [ih j (by simpa using h)]

/-- With caching effective and the id found in the class cache, a
construction returns the cached reference and changes neither the cache
nor the heap size. -/
theorem construct_cached_eq (f : Int → Obj → Obj) (cl : Nat) (s : Sys)
    (n : Int) (i : Nat) (hcl : CACHE_OBJECTS ≤ cl)
    (hf : cacheFind s.cache (CKey.kint n) = some i) :
    ∃ s1, construct f cl true s (IdArg.id n) = Except.ok (i, s1)
      ∧ s1.cache = s.cache ∧ s1.heap.length = s.heap.length := by
  have hnc : ¬(cl < CACHE_OBJECTS ∨ (true : Bool) = false) := by
    simp
    omega
  obtain ⟨o2, ho2⟩ := concrete_init_id_exists f n (s.heap.getD i freshObj)
  refine ⟨{ s with heap := s.heap.set i o2 }, ?_, rfl, by simp⟩
  have hnew : nitrate_new cl true s (IdArg.id n) = (i, s) := by
    rw [nitrate_new, if_neg hnc]
    simp [_cache_lookup, hf]
  simp only [construct, hnew, ho2]

/-- With caching effective and the id missing from the class cache, a
construction allocates the next reference and registers it under the id. -/
theorem construct_uncached_id_eq (f : Int → Obj → Obj) (cl : Nat) (s : Sys)
    (n : Int) (hcl : CACHE_OBJECTS ≤ cl)
    (hf : cacheFind s.cache (CKey.kint n) = none) :
    ∃ s1, construct f cl true s (IdArg.id n)
        = Except.ok (s.heap.length, s1)
      ∧ s1.cache = (CKey.kint n, s.heap.length) :: s.cache := by
  have hnc : ¬(cl < CACHE_OBJECTS ∨ (true : Bool) = false) := by
    simp
    omega
  obtain ⟨o2, ho2⟩ := concrete_init_id_exists f n freshObj
  refine ⟨{ heap := (s.heap ++ [freshObj]).set s.heap.length o2,
            cache := (CKey.kint n, s.heap.length) :: s.cache }, ?_, rfl⟩
  have hnew : nitrate_new cl true s (IdArg.id n)
      = (s.heap.length,
          { heap := s.heap ++ [freshObj],
            cache := (CKey.kint n, s.heap.length) :: s.cache }) := by
    rw [nitrate_new, if_neg hnc]
    simp [_cache_lookup, hf]
  simp only [construct, hnew, getD_append_self, ho2]

/-- With caching off a construction always allocates a fresh reference and
registers nothing. -/
theorem construct_nocache_eq (f : Int → Obj → Obj) (cl : Nat)
    (hasCache : Bool) (s : Sys) (n : Int)
    (hoff : cl < CACHE_OBJECTS ∨ hasCache = false) :
    ∃ s1, construct f cl hasCache s (IdArg.id n)
        = Except.ok (s.heap.length, s1)
      ∧ s1.cache = s.cache ∧ s1.heap.length = s.heap.length + 1 := by
  obtain ⟨o2, ho2⟩ := concrete_init_id_exists f n freshObj
  refine ⟨{ heap := (s.heap ++ [freshObj]).set s.heap.length o2,
            cache := s.cache }, ?_, rfl, by simp⟩
  have hnew : nitrate_new cl hasCache s (IdArg.id n)
      = (s.heap.length,
          { heap := s.heap ++ [freshObj], cache := s.cache }) := by
    rw [nitrate_new, if_pos hoff]
  simp only [construct, hnew, getD_append_self, ho2]

/-! ### Claim C2 -/

/-- Claim C2: with caching enabled (cache level at least `CACHE_OBJECTS`
and the type declaring a `_cache`), two constructions with the same
integer id return the identical instance — the very same reference; with
caching disabled the two constructions return two distinct fresh
references and register nothing in the cache. -/
theorem new_identity_uniqueness (f : Int → Obj → Obj) (cl : Nat)
    (hasCache : Bool) (s : Sys) (n : Int) :
    if CACHE_OBJECTS ≤ cl ∧ hasCache = true then
      ∃ r s2, construct2 f cl hasCache s (IdArg.id n) = some (r, r, s2)
    else
      ∃ r1 r2 s2, construct2 f cl hasCache s (IdArg.id n) = some (r1, r2, s2)
        ∧ r1 ≠ r2 ∧ s2.cache = s.cache := by
  by_cases hcond : CACHE_OBJECTS ≤ cl ∧ hasCache = true
  · rw [if_pos hcond]
    obtain ⟨hcl, hhc⟩ := hcond
    subst hhc
    cases hf : cacheFind s.cache (CKey.kint n) with
    | some i =>
        obtain ⟨s1, h1, hc1, _⟩ := construct_cached_eq f cl s n i hcl hf
        have hf1 : cacheFind s1.cache (CKey.kint n) = some i := by
          rw [hc1, hf]
        obtain ⟨s2, h2, _, _⟩ := construct_cached_eq f cl s1 n i hcl hf1
        exact ⟨i, s2, by simp [construct2, h1, h2]⟩
    | none =>
        obtain ⟨s1, h1, hc1⟩ := construct_uncached_id_eq f cl s n hcl hf
        have hf1 : cacheFind s1.cache (CKey.kint n) = some s.heap.length := by
          rw [hc1]
          simp [cacheFind]
        obtain ⟨s2, h2, _, _⟩ :=
          construct_cached_eq f cl s1 n s.heap.length hcl hf1
        exact ⟨s.heap.length, s2, by simp [construct2, h1, h2]⟩
  · rw [if_neg hcond]
    have hoff : cl < CACHE_OBJECTS ∨ hasCache = false := by
      by_cases hb : hasCache = true
      · subst hb
        left
        by_contra hcl2
        exact hcond ⟨by omega, rfl⟩
      · right
        simpa using hb
    obtain ⟨s1, h1, hc1, hl1⟩ := construct_nocache_eq f cl hasCache s n hoff
    obtain ⟨s2, h2, hc2, _⟩ := construct_nocache_eq f cl hasCache s1 n hoff
    refine ⟨s.heap.length, s1.heap.length, s2,
      by simp [construct2, h1, h2], by omega, by rw [hc2, hc1]⟩

/-! ### Claim C4 -/

/-- Claim C4 shows a code defect (the claim matches the spec and the log
message of the code, the code does not): at cache level `CACHE_OBJECTS`
with an empty cache, constructing a cached type by the name `tier1` twice
yields two distinct instances (references 0 and 1) and the cache stays
empty — the string-name branch of `Nitrate.__new__` writes the log line
`Caching <type> '<name>'` yet, unlike the integer-id branch directly
above it, never assigns `cls._cache[...] = new`, so the second
construction misses the cache and allocates a fresh instance. -/
theorem construct_by_name_not_registered :
    (construct2 (fun _ o => o) CACHE_OBJECTS true (Sys.mk [] [])
        (IdArg.name ("tier1"))).map
      (fun t => (t.1, t.2.1, t.2.2.cache)) = some (0, 1, []) := rfl

/-! ### Claim C5 -/

/-- Claim C5 (concrete `__init__` modelled from the spec, see
`concrete_init`): when the identity key `k` is already registered in the
class cache and points to a live initialized instance, constructing the
type with `k` returns exactly that reference and leaves the entire state
— the instance's fields and `_fetched` timestamp included — untouched,
and this for every conceivable fetch implementation `f`, so no fetch can
have been triggered. -/
theorem construct_cached_frame (f : Int → Obj → Obj) (cl : Nat) (s : Sys)
    (k : CKey) (i : Nat) (hcl : CACHE_OBJECTS ≤ cl)
    (hfound : cacheFind s.cache k = some i) (hlen : i < s.heap.length)
    (hinit : (s.heap.getD i freshObj)._id ≠ Value.pynone) :
    construct f cl true s (argOfKey k) = Except.ok (i, s) := by
  have hnc : ¬(cl < CACHE_OBJECTS ∨ (true : Bool) = false) := by
    simp
    omega
  have hlook : _cache_lookup s.cache (argOfKey k) = some (i, k) := by
    cases k <;> simp [argOfKey, _cache_lookup, hfound]
  have hci : concrete_init f (argOfKey k) (s.heap.getD i freshObj)
      = Except.ok (s.heap.getD i freshObj) := by
    cases k with
    | kint n =>
        show concrete_init f (IdArg.id n) (s.heap.getD i freshObj) = _
        unfold concrete_init
        rw [if_pos hinit]
    | kstr t =>
        show concrete_init f (IdArg.name t) (s.heap.getD i freshObj) = _
        unfold concrete_init
        rw [if_pos hinit]
  have hnew : nitrate_new cl true s (argOfKey k) = (i, s) := by
    rw [nitrate_new, if_neg hnc, hlook]
  simp only [construct, hnew, hci, set_getD_self s.heap i freshObj hlen]

/-- The live instance and state used by the C5 witness: one hydrated
instance with id 7 registered under key 7. -/
def objC5 : Obj :=
  { _id := Value.vint 7, _name := Value.pynone, _fetched := some 5,
    _modified := false, pfx := ("ID"), injectVal := none,
    fields := fun _ => Value.vint 3 }

/-- The one-instance state used by the C5 witness. -/
def sysC5 : Sys := { heap := [objC5], cache := [(CKey.kint 7, 0)] }

/-- Witness for C5: re-constructing the cached instance with id 7 returns
reference 0 and the state unchanged. -/
theorem construct_cached_frame_witness :
    cacheFind sysC5.cache (CKey.kint 7) = some 0
    ∧ (sysC5.heap.getD 0 freshObj)._id ≠ Value.pynone
    ∧ construct (fun _ o => o) CACHE_OBJECTS true sysC5
        (argOfKey (CKey.kint 7)) = Except.ok (0, sysC5) :=
  ⟨rfl, by decide,
    construct_cached_frame (fun _ o => o) CACHE_OBJECTS sysC5 (CKey.kint 7) 0
      (by decide) rfl (by decide) (by decide)⟩
